import Mathlib

/-
Verification of diffprivlib/mechanisms/laplace.py.

The source implements the classic Laplace mechanism for differential privacy and
four derivatives (truncated, folded, bounded-domain, bounded-noise).  Real-valued
Python floats are embedded as Lean reals; the process-wide uniform draw
`random()` is passed in explicitly as a parameter `u`, so every sampling method
becomes a pure function of the configuration, the value and the draw.  The
mechanism instance state (sensitivity, epsilon, delta, bounds, caches) is an
explicit record, and methods that can raise return `Except`.

The base classes `DPMechanism` and `TruncationAndFoldingMachine` are imported by
the source file but their code is not part of this repository snapshot; their
members are modelled from the specification and marked as such.
-/

noncomputable section

namespace DPLib

/-- Python values handed to the mechanism methods: a numeric value, or a
non-numeric value (represented by a string) used to exercise the type checks. -/
inductive PyVal where
  | num (x : ℝ)
  | str (s : String)

/-- Python exceptions raised by the mechanisms. -/
inductive Err where
  | typeError (msg : String)
  | valueError (msg : String)

/-- The computation raised an exception. -/
def isError {α : Type} (r : Except Err α) : Prop :=
  ∃ e, r = Except.error e

/-- Mechanism instance state.  `epsilon`, `delta` live in the configuration base
class; `sensitivity` in `Laplace.__init__` (line 19); `lower`/`upper` in the
truncation-and-folding collaborator; `scale` is `LaplaceBoundedDomain._scale`
(line 270); `shape` and `noiseBound` are `LaplaceBoundedNoise._shape` and
`LaplaceBoundedNoise._noise_bound` (lines 403-404).  Unset fields are `none`. -/
structure MechState where
  epsilon : Option ℝ
  delta : ℝ
  sensitivity : Option ℝ
  lower : Option ℝ
  upper : Option ℝ
  scale : Option ℝ
  shape : Option ℝ
  noiseBound : Option ℝ

/-- Body of `Laplace.randomise` (laplace.py lines 100-104) with the uniform draw
`u = random()` injected: `scale = sensitivity / epsilon`,
`unif_rv = u - 0.5`, result `value - scale * sign(unif_rv) * log(1 - 2 |unif_rv|)`. -/
def Laplace.randomiseVal (sensitivity epsilon value u : ℝ) : ℝ :=
  let scale := sensitivity / epsilon
  let unif_rv := u - 0.5
  value - scale * Real.sign unif_rv * Real.log (1 - 2 * |unif_rv|)

/-- The zero-centred Laplace CDF shared by `LaplaceBoundedDomain._cdf`
(lines 301-309) and `LaplaceBoundedNoise._cdf` (lines 429-436), parametrised by
the stored scale (resp. shape).  The `scale = 0` branch is the source's explicit
infinite-epsilon step function. -/
def laplaceCdf (scale value : ℝ) : ℝ :=
  if scale = 0 then (if value < 0 then 0 else 1)
  else if value < 0 then 0.5 * Real.exp (value / scale)
  else 1 - 0.5 * Real.exp (-value / scale)

/-- Body of `LaplaceBoundedDomain.randomise` (lines 381-394) after the scale
cache is resolved, with the uniform draw injected: the value is clamped into
the bounds (lines 386-387), the draw is rescaled into
`[cdf(lower - value), cdf(upper - value)]` and shifted by `-0.5`
(lines 389-392), then inverted (line 394). -/
def LaplaceBoundedDomain.randomiseVal (scale lower upper value u : ℝ) : ℝ :=
  let value2 := max (min value upper) lower
  let unif_rv := u * (laplaceCdf scale (upper - value2) - laplaceCdf scale (lower - value2))
      + laplaceCdf scale (lower - value2) - 0.5
  value2 - scale * Real.sign unif_rv * Real.log (1 - 2 * |unif_rv|)

/-- Noise bound of `LaplaceBoundedNoise.randomise` (lines 472-474):
`-1` when the shape `sensitivity / epsilon` is zero, otherwise
`shape * log(1 + (exp epsilon - 1) / 2 / delta)`. -/
def LaplaceBoundedNoise.noiseBoundVal (sensitivity epsilon delta : ℝ) : ℝ :=
  let shape := sensitivity / epsilon
  if shape = 0 then -1
  else shape * Real.log (1 + (Real.exp epsilon - 1) / 2 / delta)

/-- Sampling part of `LaplaceBoundedNoise.randomise` (lines 476-481) given the
(possibly cached) shape and noise bound: rescale the draw into
`[cdf(-noise_bound), cdf(noise_bound)]`, shift by `-0.5`, invert. -/
def LaplaceBoundedNoise.sampleVal (shape noise_bound value u : ℝ) : ℝ :=
  let unif_rv := u * (laplaceCdf shape noise_bound - laplaceCdf shape (-noise_bound))
      + laplaceCdf shape (-noise_bound) - 0.5
  value - shape * (Real.sign unif_rv * Real.log (1 - 2 * |unif_rv|))

/-- Body of `LaplaceBoundedNoise.randomise` (lines 469-481) on a fresh instance
(caches unset, so shape and noise bound are recomputed), with the draw injected. -/
def LaplaceBoundedNoise.randomiseVal (sensitivity epsilon delta value u : ℝ) : ℝ :=
  LaplaceBoundedNoise.sampleVal (sensitivity / epsilon)
    (LaplaceBoundedNoise.noiseBoundVal sensitivity epsilon delta) value u

/-- Bias formula of `LaplaceTruncated.get_bias` (lines 131-135):
`shape/2 * (exp((lower-value)/shape) - exp((value-upper)/shape))` with
`shape = sensitivity/epsilon`. -/
def LaplaceTruncated.biasVal (sensitivity epsilon lower upper value : ℝ) : ℝ :=
  let shape := sensitivity / epsilon
  shape / 2 * (Real.exp ((lower - value) / shape) - Real.exp ((value - upper) / shape))

/-- Variance formula of `LaplaceTruncated.get_variance` (lines 146-157). -/
def LaplaceTruncated.varianceVal (sensitivity epsilon lower upper value : ℝ) : ℝ :=
  let shape := sensitivity / epsilon
  value ^ 2
    + shape * (lower * Real.exp ((lower - value) / shape)
        - upper * Real.exp ((value - upper) / shape))
    + shape ^ 2 * (2 - Real.exp ((lower - value) / shape)
        - Real.exp ((value - upper) / shape))
    - (LaplaceTruncated.biasVal sensitivity epsilon lower upper value + value) ^ 2

/-- Bias formula of `LaplaceFolded.get_bias` (lines 213-220). -/
def LaplaceFolded.biasVal (sensitivity epsilon lower upper value : ℝ) : ℝ :=
  let shape := sensitivity / epsilon
  shape * (Real.exp ((lower + upper - 2 * value) / shape) - 1)
    / (Real.exp ((lower - value) / shape) + Real.exp ((upper - value) / shape))

/-- Bias formula of `LaplaceBoundedDomain.get_bias` (lines 337-340), with
`scale` the solved scale: the numerator keeps the `value - lower` and
`upper - value` terms, and the quotient is the conditional mass. -/
def LaplaceBoundedDomain.biasVal (scale lower upper value : ℝ) : ℝ :=
  ((scale - lower + value) / 2 * Real.exp ((lower - value) / scale)
      - (scale + upper - value) / 2 * Real.exp ((value - upper) / scale))
    / (1 - Real.exp ((lower - value) / scale) / 2
        - Real.exp ((value - upper) / scale) / 2)

/-- Variance formula of `LaplaceBoundedDomain.get_variance` (lines 358-370). -/
def LaplaceBoundedDomain.varianceVal (scale lower upper value : ℝ) : ℝ :=
  (value ^ 2
      - (Real.exp ((lower - value) / scale) * lower ^ 2
          + Real.exp ((value - upper) / scale) * upper ^ 2) / 2
      + scale * (lower * Real.exp ((lower - value) / scale)
          - upper * Real.exp ((value - upper) / scale))
      + scale ^ 2 * (2 - Real.exp ((lower - value) / scale)
          - Real.exp ((value - upper) / scale)))
    / (1 - (Real.exp (-(value - lower) / scale)
          + Real.exp (-(upper - value) / scale)) / 2)
    - (LaplaceBoundedDomain.biasVal scale lower upper value + value) ^ 2

/-- The bounded-domain bias the specification claims: the truncated-Laplace
numerator `scale/2 * (exp((lower-value)/scale) - exp((value-upper)/scale))`
divided by the conditional mass
`1 - exp((lower-value)/scale)/2 - exp((value-upper)/scale)/2`.
This definition follows the specification's words, to be compared with
`LaplaceBoundedDomain.biasVal`, which follows the source. -/
def specBoundedDomainBias (scale lower upper value : ℝ) : ℝ :=
  scale / 2 * (Real.exp ((lower - value) / scale) - Real.exp ((value - upper) / scale))
    / (1 - Real.exp ((lower - value) / scale) / 2
        - Real.exp ((value - upper) / scale) / 2)

/-- One pass of the bisection loop of `LaplaceBoundedDomain._find_scale`
(lines 290-297): both conditional updates read the same midpoint of the
incoming interval. -/
def bisectStep (f : ℝ → ℝ) (lr : ℝ × ℝ) : ℝ × ℝ :=
  let middle := (lr.2 + lr.1) / 2
  (if f middle ≥ middle then middle else lr.1,
    if f middle ≤ middle then middle else lr.2)

/-- Body of `LaplaceBoundedDomain._find_scale` (lines 272-299).  The local
`delta` is fixed to `0.0` by the source (line 274) and the instance delta is
never read.  The `while` loop stops only when floating-point rounding makes the
interval stop shrinking; here it is modelled by an explicit number of bisection
passes `fuel`, after which the midpoint is returned (line 299). -/
def LaplaceBoundedDomain.findScaleVal (eps delta_q lower upper : ℝ) (fuel : ℕ) : ℝ :=
  let delta : ℝ := 0
  let diam := upper - lower
  let delta_c := fun (shape : ℝ) =>
    if shape = 0 then 2
    else (2 - Real.exp (-delta_q / shape) - Real.exp (-(diam - delta_q) / shape))
        / (1 - Real.exp (-diam / shape))
  let f := fun (shape : ℝ) =>
    delta_q / (eps - Real.log (delta_c shape) - Real.log (1 - delta))
  let left := delta_q / (eps - Real.log (1 - delta))
  let right := f left
  let lr := (bisectStep f)^[fuel] (left, right)
  (lr.2 + lr.1) / 2

/-- `LaplaceBoundedDomain._find_scale` as invoked on an instance: it reads
`self._epsilon`, `self._sensitivity` and the two bounds (lines 273-276) and
nothing else.  On an unconfigured instance the source would fault on `None`
arithmetic; the arbitrary total value `0` stands in for that case and is never
relied upon under a passed configuration check. -/
def LaplaceBoundedDomain.findScale (st : MechState) (fuel : ℕ) : ℝ :=
  match st.epsilon, st.sensitivity, st.lower, st.upper with
  | some eps, some delta_q, some lo, some hi =>
      LaplaceBoundedDomain.findScaleVal eps delta_q lo hi fuel
  | _, _, _, _ => 0

/-- Scale-cache resolution of `LaplaceBoundedDomain` (lines 318-319, 334-335,
355-356, 383-384): use `self._scale` when already set, otherwise solve. -/
def LaplaceBoundedDomain.resolveScale (st : MechState) (fuel : ℕ) : ℝ :=
  match st.scale with
  | some b => b
  | none => LaplaceBoundedDomain.findScale st fuel

/-- Extended-real model of `np.log` on nonnegative arguments: IEEE evaluates
`log 0` to negative infinity rather than raising. -/
def npLog (x : ℝ) : EReal := if x = 0 then ⊥ else (Real.log x : EReal)

/-- Body of `Laplace.randomise` (lines 100-104) with the final arithmetic
carried out in extended reals through `npLog`, so that the defined IEEE
limiting behaviour at the extreme draws `|u - 0.5| = 0.5` is expressible. -/
def Laplace.randomiseEVal (sensitivity epsilon value u : ℝ) : EReal :=
  (value : EReal) - ((sensitivity / epsilon * Real.sign (u - 0.5) : ℝ) : EReal)
      * npLog (1 - 2 * |u - 0.5|)

/-- Modelled from the spec: `DPMechanism.check_inputs` of the configuration
base class (not part of this snapshot) verifies that epsilon has been set
("check_ready(value) verifying epsilon is set"). -/
def DPMechanism.check_inputs (st : MechState) (_value : PyVal) : Except Err Unit :=
  match st.epsilon with
  | none => Except.error (Err.valueError "Epsilon must be set")
  | some _ => Except.ok ()

/-- Modelled from the spec: `DPMechanism.set_epsilon_delta` of the
configuration base class validates `epsilon > 0` and stores the pair. -/
def DPMechanism.set_epsilon_delta (st : MechState) (epsilon delta : ℝ) :
    Except Err MechState :=
  if epsilon ≤ 0 then Except.error (Err.valueError "Epsilon must be strictly positive")
  else Except.ok
    ⟨some epsilon, delta, st.sensitivity, st.lower, st.upper, st.scale, st.shape,
      st.noiseBound⟩

/-- Modelled from the spec: `TruncationAndFoldingMachine.check_inputs` of the
domain collaborator (not part of this snapshot) requires the bounds to be set. -/
def TruncationAndFoldingMachine.check_inputs (st : MechState) (_value : PyVal) :
    Except Err Unit :=
  match st.lower, st.upper with
  | some _, some _ => Except.ok ()
  | _, _ => Except.error (Err.valueError "Upper and lower bounds must be set")

/-- Modelled from the spec: `TruncationAndFoldingMachine._truncate` clips the
value into `[lower, upper]`. -/
def TruncationAndFoldingMachine.truncate (lower upper x : ℝ) : ℝ :=
  max lower (min x upper)

/-- Modelled from the spec: `TruncationAndFoldingMachine._fold` reflects the
value off the boundaries until it lies in `[lower, upper]`; closed form of the
resulting period `2 (upper - lower)` triangle wave. -/
def TruncationAndFoldingMachine.fold (lower upper x : ℝ) : ℝ :=
  let p := 2 * (upper - lower)
  let y := (x - lower) - p * ↑⌊(x - lower) / p⌋
  if y ≤ upper - lower then lower + y else lower + (p - y)

/-- `Laplace.set_sensitivity` (lines 27-43): type error on non-numeric input,
range error on a non-positive value (storage untouched in both cases), stores
the sensitivity and returns the mechanism otherwise. -/
def Laplace.set_sensitivity (st : MechState) (sensitivity : PyVal) :
    Except Err MechState :=
  match sensitivity with
  | PyVal.str _ => Except.error (Err.typeError "Sensitivity must be numeric")
  | PyVal.num s =>
      if s ≤ 0 then Except.error (Err.valueError "Sensitivity must be strictly positive")
      else Except.ok
        ⟨st.epsilon, st.delta, some s, st.lower, st.upper, st.scale, st.shape,
          st.noiseBound⟩

/-- `Laplace.check_inputs` (lines 45-63): the base check (epsilon set), then the
numeric check on the value, then the sensitivity-set check. -/
def Laplace.check_inputs (st : MechState) (value : PyVal) : Except Err Unit :=
  match DPMechanism.check_inputs st value with
  | Except.error e => Except.error e
  | Except.ok _ =>
      match value with
      | PyVal.str _ => Except.error (Err.typeError "Value to be randomised must be a number")
      | PyVal.num _ =>
          match st.sensitivity with
          | none => Except.error (Err.valueError "Sensitivity must be set")
          | some _ => Except.ok ()

/-- `Laplace.get_bias` (lines 65-74): returns `0.0` unconditionally, with no
configuration check. -/
def Laplace.get_bias (_st : MechState) (_value : PyVal) : Except Err ℝ :=
  Except.ok 0

/-- `Laplace.get_variance` (lines 76-87): checks the configuration (at value
`0`, line 85) and returns `2 * (sensitivity / epsilon) ^ 2`. -/
def Laplace.get_variance (st : MechState) (_value : PyVal) : Except Err ℝ :=
  match Laplace.check_inputs st (PyVal.num 0) with
  | Except.error e => Except.error e
  | Except.ok _ =>
      match st.sensitivity, st.epsilon with
      | some s, some eps => Except.ok (2 * (s / eps) ^ 2)
      | _, _ => Except.error (Err.valueError "unreachable under a passed check")

/-- `Laplace.randomise` (lines 89-104): checks the configuration, then samples. -/
def Laplace.randomise (st : MechState) (value : PyVal) (u : ℝ) : Except Err ℝ :=
  match Laplace.check_inputs st value with
  | Except.error e => Except.error e
  | Except.ok _ =>
      match value, st.sensitivity, st.epsilon with
      | PyVal.num x, some s, some eps => Except.ok (Laplace.randomiseVal s eps x u)
      | _, _, _ => Except.error (Err.valueError "unreachable under a passed check")

/-- `LaplaceTruncated.check_inputs` (lines 159-172): the Laplace checks, then
the bounds checks. -/
def LaplaceTruncated.check_inputs (st : MechState) (value : PyVal) : Except Err Unit :=
  match Laplace.check_inputs st value with
  | Except.error e => Except.error e
  | Except.ok _ => TruncationAndFoldingMachine.check_inputs st value

/-- `LaplaceTruncated.get_bias` (lines 122-135). -/
def LaplaceTruncated.get_bias (st : MechState) (value : PyVal) : Except Err ℝ :=
  match LaplaceTruncated.check_inputs st value with
  | Except.error e => Except.error e
  | Except.ok _ =>
      match value, st.sensitivity, st.epsilon, st.lower, st.upper with
      | PyVal.num x, some s, some eps, some lo, some hi =>
          Except.ok (LaplaceTruncated.biasVal s eps lo hi x)
      | _, _, _, _, _ => Except.error (Err.valueError "unreachable under a passed check")

/-- `LaplaceTruncated.get_variance` (lines 137-157). -/
def LaplaceTruncated.get_variance (st : MechState) (value : PyVal) : Except Err ℝ :=
  match LaplaceTruncated.check_inputs st value with
  | Except.error e => Except.error e
  | Except.ok _ =>
      match value, st.sensitivity, st.epsilon, st.lower, st.upper with
      | PyVal.num x, some s, some eps, some lo, some hi =>
          Except.ok (LaplaceTruncated.varianceVal s eps lo hi x)
      | _, _, _, _, _ => Except.error (Err.valueError "unreachable under a passed check")

/-- `LaplaceTruncated.randomise` (lines 174-186): the bounds check, then the
base sampler (which re-checks), then truncation. -/
def LaplaceTruncated.randomise (st : MechState) (value : PyVal) (u : ℝ) :
    Except Err ℝ :=
  match TruncationAndFoldingMachine.check_inputs st value with
  | Except.error e => Except.error e
  | Except.ok _ =>
      match Laplace.randomise st value u with
      | Except.error e => Except.error e
      | Except.ok noisy =>
          match st.lower, st.upper with
          | some lo, some hi =>
              Except.ok (TruncationAndFoldingMachine.truncate lo hi noisy)
          | _, _ => Except.error (Err.valueError "unreachable under a passed check")

/-- `LaplaceFolded.check_inputs` (lines 233-246): same composition as the
truncated variant. -/
def LaplaceFolded.check_inputs (st : MechState) (value : PyVal) : Except Err Unit :=
  match Laplace.check_inputs st value with
  | Except.error e => Except.error e
  | Except.ok _ => TruncationAndFoldingMachine.check_inputs st value

/-- `LaplaceFolded.get_bias` (lines 204-220). -/
def LaplaceFolded.get_bias (st : MechState) (value : PyVal) : Except Err ℝ :=
  match LaplaceFolded.check_inputs st value with
  | Except.error e => Except.error e
  | Except.ok _ =>
      match value, st.sensitivity, st.epsilon, st.lower, st.upper with
      | PyVal.num x, some s, some eps, some lo, some hi =>
          Except.ok (LaplaceFolded.biasVal s eps lo hi x)
      | _, _, _, _, _ => Except.error (Err.valueError "unreachable under a passed check")

/-- `LaplaceFolded.get_variance` (lines 222-231): the body is `pass`, so the
call performs no check and returns Python's `None` for every input. -/
def LaplaceFolded.get_variance (_st : MechState) (_value : PyVal) :
    Except Err (Option ℝ) :=
  Except.ok none

/-- `LaplaceFolded.randomise` (lines 248-260): the bounds check, the base
sampler, then folding. -/
def LaplaceFolded.randomise (st : MechState) (value : PyVal) (u : ℝ) :
    Except Err ℝ :=
  match TruncationAndFoldingMachine.check_inputs st value with
  | Except.error e => Except.error e
  | Except.ok _ =>
      match Laplace.randomise st value u with
      | Except.error e => Except.error e
      | Except.ok noisy =>
          match st.lower, st.upper with
          | some lo, some hi =>
              Except.ok (TruncationAndFoldingMachine.fold lo hi noisy)
          | _, _ => Except.error (Err.valueError "unreachable under a passed check")

/-- `LaplaceBoundedDomain.get_bias` (lines 323-342): the inherited checks, the
scale-cache resolution, then the conditional-mass bias formula. -/
def LaplaceBoundedDomain.get_bias (st : MechState) (value : PyVal) (fuel : ℕ) :
    Except Err ℝ :=
  match LaplaceTruncated.check_inputs st value with
  | Except.error e => Except.error e
  | Except.ok _ =>
      match value, st.lower, st.upper with
      | PyVal.num x, some lo, some hi =>
          Except.ok (LaplaceBoundedDomain.biasVal
            (LaplaceBoundedDomain.resolveScale st fuel) lo hi x)
      | _, _, _ => Except.error (Err.valueError "unreachable under a passed check")

/-- `LaplaceBoundedDomain.get_variance` (lines 344-370). -/
def LaplaceBoundedDomain.get_variance (st : MechState) (value : PyVal) (fuel : ℕ) :
    Except Err ℝ :=
  match LaplaceTruncated.check_inputs st value with
  | Except.error e => Except.error e
  | Except.ok _ =>
      match value, st.lower, st.upper with
      | PyVal.num x, some lo, some hi =>
          Except.ok (LaplaceBoundedDomain.varianceVal
            (LaplaceBoundedDomain.resolveScale st fuel) lo hi x)
      | _, _, _ => Except.error (Err.valueError "unreachable under a passed check")

/-- `LaplaceBoundedDomain.randomise` (lines 372-394). -/
def LaplaceBoundedDomain.randomise (st : MechState) (value : PyVal) (u : ℝ)
    (fuel : ℕ) : Except Err ℝ :=
  match LaplaceTruncated.check_inputs st value with
  | Except.error e => Except.error e
  | Except.ok _ =>
      match value, st.lower, st.upper with
      | PyVal.num x, some lo, some hi =>
          Except.ok (LaplaceBoundedDomain.randomiseVal
            (LaplaceBoundedDomain.resolveScale st fuel) lo hi x u)
      | _, _, _ => Except.error (Err.valueError "unreachable under a passed check")

/-- `LaplaceBoundedDomain.get_effective_epsilon` (lines 311-321): no
configuration check; resolves the scale cache and returns
`sensitivity / scale` (or faults on unset sensitivity, modelled by `none`). -/
def LaplaceBoundedDomain.get_effective_epsilon (st : MechState) (fuel : ℕ) :
    Option ℝ :=
  match st.sensitivity with
  | some s => some (s / LaplaceBoundedDomain.resolveScale st fuel)
  | none => none

/-- `LaplaceBoundedNoise.set_epsilon_delta` (lines 406-427): rejects
`epsilon = 0`, rejects `delta` outside the open interval `(0, 0.5)`, then
delegates to the base setter. -/
def LaplaceBoundedNoise.set_epsilon_delta (st : MechState) (epsilon delta : ℝ) :
    Except Err MechState :=
  if epsilon = 0 then
    Except.error (Err.valueError "Epsilon must be strictly positive. For zero epsilon, use Uniform.")
  else if 0 < delta ∧ delta < 0.5 then DPMechanism.set_epsilon_delta st epsilon delta
  else Except.error (Err.valueError "Delta must be strictly in (0,0.5). For zero delta, use Laplace.")

/-- `LaplaceBoundedNoise.get_bias` (lines 438-447): returns `0.0`
unconditionally, with no configuration check. -/
def LaplaceBoundedNoise.get_bias (_st : MechState) (_value : PyVal) : Except Err ℝ :=
  Except.ok 0

/-- `LaplaceBoundedNoise.get_variance` (lines 449-458): the body is `pass`, so
the call performs no check and returns Python's `None` for every input. -/
def LaplaceBoundedNoise.get_variance (_st : MechState) (_value : PyVal) :
    Except Err (Option ℝ) :=
  Except.ok none

/-- Shape and noise-bound cache resolution of `LaplaceBoundedNoise.randomise`
(lines 471-474): recompute both when either is unset. -/
def LaplaceBoundedNoise.resolveShapeBound (st : MechState) (s eps : ℝ) : ℝ × ℝ :=
  match st.shape, st.noiseBound with
  | some sh, some nb => (sh, nb)
  | _, _ => (s / eps, LaplaceBoundedNoise.noiseBoundVal s eps st.delta)

/-- `LaplaceBoundedNoise.randomise` (lines 460-481). -/
def LaplaceBoundedNoise.randomise (st : MechState) (value : PyVal) (u : ℝ) :
    Except Err ℝ :=
  match Laplace.check_inputs st value with
  | Except.error e => Except.error e
  | Except.ok _ =>
      match value, st.sensitivity, st.epsilon with
      | PyVal.num x, some s, some eps =>
          Except.ok (LaplaceBoundedNoise.sampleVal
            (LaplaceBoundedNoise.resolveShapeBound st s eps).1
            (LaplaceBoundedNoise.resolveShapeBound st s eps).2 x u)
      | _, _, _ => Except.error (Err.valueError "unreachable under a passed check")

/-- A fully unconfigured mechanism instance, as after `__init__`. -/
def emptyState : MechState :=
  ⟨none, 0, none, none, none, none, none, none⟩

/-- On nonpositive arguments the Laplace CDF at a positive scale is
`0.5 * exp (value / scale)` (at `0` both branch formulas agree). -/
theorem laplaceCdf_of_nonpos {scale value : ℝ} (hs : 0 < scale) (hv : value ≤ 0) :
    laplaceCdf scale value = 0.5 * Real.exp (value / scale) := by
  unfold laplaceCdf
  rw [if_neg hs.ne']
  rcases lt_or_eq_of_le hv with hlt | heq
  · rw [if_pos hlt]
  · rw [heq]
    norm_num

/-- On nonnegative arguments the Laplace CDF at a positive scale is
`1 - 0.5 * exp (-value / scale)`. -/
theorem laplaceCdf_of_nonneg {scale value : ℝ} (hs : 0 < scale) (hv : 0 ≤ value) :
    laplaceCdf scale value = 1 - 0.5 * Real.exp (-value / scale) := by
  unfold laplaceCdf
  rw [if_neg hs.ne', if_neg (not_lt.2 hv)]

/-- Core inversion lemma shared by the bounded-domain and bounded-noise
samplers: if the uniform draw `u` in `(0,1)` is rescaled into the CDF interval
of `[A, B]` (with `A ≤ 0 ≤ B`) around `0.5`, then the resulting inverse-CDF
Laplace noise lies in `[A, B]`. -/
theorem laplaceCdf_inv_mem {scale A B u w : ℝ} (hs : 0 < scale) (hA : A ≤ 0)
    (hB : 0 ≤ B) (hu0 : 0 < u) (hu1 : u < 1)
    (hw : w = u * (laplaceCdf scale B - laplaceCdf scale A) + laplaceCdf scale A - 0.5) :
    A ≤ -(scale * Real.sign w * Real.log (1 - 2 * |w|)) ∧
      -(scale * Real.sign w * Real.log (1 - 2 * |w|)) ≤ B := by
  rw [laplaceCdf_of_nonpos hs hA, laplaceCdf_of_nonneg hs hB] at hw
  have heA : 0 < Real.exp (A / scale) := Real.exp_pos _
  have heB : 0 < Real.exp (-B / scale) := Real.exp_pos _
  have heA1 : Real.exp (A / scale) ≤ 1 := by
    rw [Real.exp_le_one_iff]
    exact div_nonpos_of_nonpos_of_nonneg hA hs.le
  have heB1 : Real.exp (-B / scale) ≤ 1 := by
    rw [Real.exp_le_one_iff]
    exact div_nonpos_of_nonpos_of_nonneg (neg_nonpos.2 hB) hs.le
  have hgap : 0.5 * Real.exp (A / scale) ≤ 1 - 0.5 * Real.exp (-B / scale) := by
    nlinarith
  have hwlo : 0.5 * Real.exp (A / scale) - 0.5 ≤ w := by
    nlinarith
  have hwhi : w ≤ 0.5 - 0.5 * Real.exp (-B / scale) := by
    nlinarith
  rcases lt_trichotomy w 0 with hneg | hzero | hpos
  · rw [Real.sign_of_neg hneg, abs_of_neg hneg]
    have harg : (1 : ℝ) - 2 * -w = 1 + 2 * w := by ring
    rw [harg]
    have hexp_le : Real.exp (A / scale) ≤ 1 + 2 * w := by nlinarith
    have hargpos : 0 < 1 + 2 * w := lt_of_lt_of_le heA hexp_le
    have hlog_ge : A / scale ≤ Real.log (1 + 2 * w) := by
      have := Real.log_le_log heA hexp_le
      rwa [Real.log_exp] at this
    have hlog_neg : Real.log (1 + 2 * w) < 0 :=
      Real.log_neg hargpos (by nlinarith)
    constructor
    · have h1 : scale * (A / scale) ≤ scale * Real.log (1 + 2 * w) :=
        mul_le_mul_of_nonneg_left hlog_ge hs.le
      have h2 : scale * (A / scale) = A := by field_simp <;> ring
      nlinarith
    · nlinarith
  · rw [hzero, Real.sign_zero]
    norm_num
    exact ⟨hA, hB⟩
  · rw [Real.sign_of_pos hpos, abs_of_pos hpos]
    have hexp_le : Real.exp (-B / scale) ≤ 1 - 2 * w := by nlinarith
    have hargpos : 0 < 1 - 2 * w := lt_of_lt_of_le heB hexp_le
    have hlog_ge : -B / scale ≤ Real.log (1 - 2 * w) := by
      have := Real.log_le_log heB hexp_le
      rwa [Real.log_exp] at this
    have hlog_neg : Real.log (1 - 2 * w) < 0 :=
      Real.log_neg hargpos (by nlinarith)
    constructor
    · nlinarith
    · have h1 : scale * (-B / scale) ≤ scale * Real.log (1 - 2 * w) :=
        mul_le_mul_of_nonneg_left hlog_ge hs.le
      have h2 : scale * (-B / scale) = -B := by field_simp <;> ring
      nlinarith

/-- C1: with the uniform draw injected, the base `Laplace.randomise` is a pure
function of `(value, sensitivity, epsilon, u)` and returns exactly
`value - (sensitivity/epsilon) * sign(u - 0.5) * log(1 - 2 |u - 0.5|)`. -/
theorem laplace_randomise_formula (sensitivity epsilon value u : ℝ)
    (hsens : 0 < sensitivity) (heps : 0 < epsilon) :
    Laplace.randomiseVal sensitivity epsilon value u
      = value - sensitivity / epsilon * Real.sign (u - 0.5)
          * Real.log (1 - 2 * |u - 0.5|) := rfl

/-- Witness for C1 at `sensitivity = 1`, `epsilon = 1`, `value = 0`, `u = 3/4`. -/
theorem laplace_randomise_formula_witness :
    Laplace.randomiseVal 1 1 0 (3/4)
      = 0 - 1 / 1 * Real.sign ((3:ℝ)/4 - 0.5) * Real.log (1 - 2 * |(3:ℝ)/4 - 0.5|) :=
  laplace_randomise_formula 1 1 0 (3/4) (by norm_num) (by norm_num)

/-- C4: for a positive solved scale, ordered bounds and any uniform draw in
`(0,1)`, `LaplaceBoundedDomain.randomise` returns a result in `[lower, upper]`
for every input value (values outside the bounds are clamped in first, so the
containment holds for the claimed case `value` in `[lower, upper]` as well). -/
theorem bounded_domain_randomise_in_bounds (scale lower upper value u : ℝ)
    (hs : 0 < scale) (hlu : lower ≤ upper) (hu0 : 0 < u) (hu1 : u < 1) :
    lower ≤ LaplaceBoundedDomain.randomiseVal scale lower upper value u ∧
      LaplaceBoundedDomain.randomiseVal scale lower upper value u ≤ upper := by
  set value2 := max (min value upper) lower with hv2
  set w := u * (laplaceCdf scale (upper - value2) - laplaceCdf scale (lower - value2))
      + laplaceCdf scale (lower - value2) - 0.5 with hwdef
  have hres : LaplaceBoundedDomain.randomiseVal scale lower upper value u
      = value2 - scale * Real.sign w * Real.log (1 - 2 * |w|) := rfl
  have hv2lo : lower ≤ value2 := le_max_right _ _
  have hv2hi : value2 ≤ upper := max_le (min_le_right _ _) hlu
  have hmem := laplaceCdf_inv_mem (A := lower - value2) (B := upper - value2)
    (w := w) hs (by linarith) (by linarith) hu0 hu1 hwdef
  rw [hres]
  constructor
  · linarith [hmem.1]
  · linarith [hmem.2]

/-- Witness for C4 at `scale = 1`, bounds `[0, 1]`, `value = 1/2`, `u = 1/2`. -/
theorem bounded_domain_randomise_in_bounds_witness :
    (0 : ℝ) ≤ LaplaceBoundedDomain.randomiseVal 1 0 1 (1/2) (1/2) ∧
      LaplaceBoundedDomain.randomiseVal 1 0 1 (1/2) (1/2) ≤ 1 :=
  bounded_domain_randomise_in_bounds 1 0 1 (1/2) (1/2)
    (by norm_num) (by norm_num) (by norm_num) (by norm_num)

/-- C7: for a complete bounded-noise configuration (`sensitivity > 0`,
`epsilon > 0`, `delta` in `(0, 0.5)`), the derived noise bound is
`(sensitivity/epsilon) * log(1 + (exp epsilon - 1)/(2 delta))`, the sentinel is
`-1` whenever the shape is zero, and for every value and every uniform draw in
`(0,1)` the randomised output lies within `noise_bound` of the value. -/
theorem bounded_noise_randomise_in_bounds (sensitivity epsilon delta value u : ℝ)
    (hsens : 0 < sensitivity) (heps : 0 < epsilon) (hd0 : 0 < delta)
    (hd1 : delta < 0.5) (hu0 : 0 < u) (hu1 : u < 1) :
    (∀ s e d : ℝ, s / e = 0 → LaplaceBoundedNoise.noiseBoundVal s e d = -1) ∧
      LaplaceBoundedNoise.noiseBoundVal sensitivity epsilon delta
        = sensitivity / epsilon * Real.log (1 + (Real.exp epsilon - 1) / (2 * delta)) ∧
      value - LaplaceBoundedNoise.noiseBoundVal sensitivity epsilon delta
        ≤ LaplaceBoundedNoise.randomiseVal sensitivity epsilon delta value u ∧
      LaplaceBoundedNoise.randomiseVal sensitivity epsilon delta value u
        ≤ value + LaplaceBoundedNoise.noiseBoundVal sensitivity epsilon delta := by
  have hshape : 0 < sensitivity / epsilon := div_pos hsens heps
  have hsent : ∀ s e d : ℝ, s / e = 0 → LaplaceBoundedNoise.noiseBoundVal s e d = -1 := by
    intro s e d h
    unfold LaplaceBoundedNoise.noiseBoundVal
    rw [if_pos h]
  have hform : LaplaceBoundedNoise.noiseBoundVal sensitivity epsilon delta
      = sensitivity / epsilon * Real.log (1 + (Real.exp epsilon - 1) / (2 * delta)) := by
    unfold LaplaceBoundedNoise.noiseBoundVal
    rw [if_neg hshape.ne', div_div]
  set nb := LaplaceBoundedNoise.noiseBoundVal sensitivity epsilon delta with hnb
  have hnb_nonneg : 0 ≤ nb := by
    rw [hform]
    have harg : (1 : ℝ) ≤ 1 + (Real.exp epsilon - 1) / (2 * delta) := by
      have h1 : (1 : ℝ) ≤ Real.exp epsilon := Real.one_le_exp heps.le
      have h2 : 0 ≤ (Real.exp epsilon - 1) / (2 * delta) :=
        div_nonneg (by linarith) (by linarith)
      linarith
    exact mul_nonneg hshape.le (Real.log_nonneg harg)
  set w := u * (laplaceCdf (sensitivity / epsilon) nb
        - laplaceCdf (sensitivity / epsilon) (-nb))
      + laplaceCdf (sensitivity / epsilon) (-nb) - 0.5 with hwdef
  have hres : LaplaceBoundedNoise.randomiseVal sensitivity epsilon delta value u
      = value - sensitivity / epsilon * (Real.sign w * Real.log (1 - 2 * |w|)) := rfl
  have hmem := laplaceCdf_inv_mem (A := -nb) (B := nb) (w := w) hshape
    (by linarith) hnb_nonneg hu0 hu1 hwdef
  refine ⟨hsent, hform, ?_, ?_⟩
  · rw [hres]
    have := hmem.1
    nlinarith [this]
  · rw [hres]
    have := hmem.2
    nlinarith [this]

/-- Witness for C7 at `sensitivity = 1`, `epsilon = 1`, `delta = 1/4`,
`value = 0`, `u = 1/2`. -/
theorem bounded_noise_randomise_in_bounds_witness :
    (∀ s e d : ℝ, s / e = 0 → LaplaceBoundedNoise.noiseBoundVal s e d = -1) ∧
      LaplaceBoundedNoise.noiseBoundVal 1 1 (1/4)
        = 1 / 1 * Real.log (1 + (Real.exp 1 - 1) / (2 * (1/4))) ∧
      0 - LaplaceBoundedNoise.noiseBoundVal 1 1 (1/4)
        ≤ LaplaceBoundedNoise.randomiseVal 1 1 (1/4) 0 (1/2) ∧
      LaplaceBoundedNoise.randomiseVal 1 1 (1/4) 0 (1/2)
        ≤ 0 + LaplaceBoundedNoise.noiseBoundVal 1 1 (1/4) :=
  bounded_noise_randomise_in_bounds 1 1 (1/4) 0 (1/2) (by norm_num) (by norm_num)
    (by norm_num) (by norm_num) (by norm_num) (by norm_num)

/-- C3 counterexample: at solved scale `1`, bounds `[0, 1]` and value `0`, the
source's bounded-domain bias is not the spec's truncated-style formula divided
by the conditional mass. -/
theorem bounded_domain_bias_ne_spec :
    LaplaceBoundedDomain.biasVal 1 0 1 0 ≠ specBoundedDomainBias 1 0 1 0 := by
  have hE0 : 0 < Real.exp (-1 : ℝ) := Real.exp_pos _
  have hE1 : Real.exp (-1 : ℝ) < 1 := Real.exp_lt_one_iff.2 (by norm_num)
  unfold LaplaceBoundedDomain.biasVal specBoundedDomainBias
  have e1 : ((0 : ℝ) - 0) / 1 = 0 := by norm_num
  have e2 : ((0 : ℝ) - 1) / 1 = -1 := by norm_num
  rw [e1, e2, Real.exp_zero]
  have hpos : (0 : ℝ) < 1 - 1 / 2 - Real.exp (-1 : ℝ) / 2 := by linarith
  intro h
  rw [div_eq_div_iff hpos.ne' hpos.ne'] at h
  nlinarith [mul_pos hE0 hpos]

/-- C3 amended: on a complete configuration with cached solved scale `b`,
bounded-domain `get_bias` returns the source's conditional bias, whose
numerator is `(b - lower + value)/2 * exp((lower-value)/b)
- (b + upper - value)/2 * exp((value-upper)/b)` (not the truncated-style
`b/2 * (exp - exp)`), divided by the conditional mass
`1 - exp((lower-value)/b)/2 - exp((value-upper)/b)/2`. -/
theorem bounded_domain_get_bias_formula (e d s lo hi b x : ℝ) (sh nb : Option ℝ)
    (fuel : ℕ) :
    LaplaceBoundedDomain.get_bias ⟨some e, d, some s, some lo, some hi, some b, sh, nb⟩
        (PyVal.num x) fuel
      = Except.ok (((b - lo + x) / 2 * Real.exp ((lo - x) / b)
            - (b + hi - x) / 2 * Real.exp ((x - hi) / b))
          / (1 - Real.exp ((lo - x) / b) / 2 - Real.exp ((x - hi) / b) / 2)) := rfl

/-- C8: with derived scale zero the internal Laplace CDF is the step function
(`0` on negative arguments, `1` otherwise); the zero-scale bounded-domain and
bounded-noise samplers return the value unchanged rather than faulting on a
division; and at the extreme draws `|u - 0.5| = 0.5` the base sampler's log
argument is exactly `0`, whose IEEE value is negative infinity, so the
extended-real reading of the base sampler returns positive infinity at `u = 1`
for a positive scale instead of raising. -/
theorem degenerate_scale_behaviour :
    (∀ x : ℝ, x < 0 → laplaceCdf 0 x = 0) ∧
      (∀ x : ℝ, 0 ≤ x → laplaceCdf 0 x = 1) ∧
      (∀ lower upper value u : ℝ, lower < value → value < upper →
        LaplaceBoundedDomain.randomiseVal 0 lower upper value u = value) ∧
      (∀ s e d value u : ℝ, s / e = 0 →
        LaplaceBoundedNoise.randomiseVal s e d value u = value) ∧
      (∀ u : ℝ, |u - 0.5| = 0.5 → npLog (1 - 2 * |u - 0.5|) = ⊥) ∧
      (∀ s e value : ℝ, 0 < s / e → Laplace.randomiseEVal s e value 1 = ⊤) := by
  refine ⟨?_, ?_, ?_, ?_, ?_, ?_⟩
  · intro x hx
    simp [laplaceCdf, hx]
  · intro x hx
    simp [laplaceCdf, not_lt.2 hx]
  · intro lower upper value u h1 h2
    have hv2 : max (min value upper) lower = value := by
      rw [min_eq_left h2.le, max_eq_left h1.le]
    simp only [LaplaceBoundedDomain.randomiseVal]
    rw [hv2]
    have hcu : laplaceCdf 0 (upper - value) = 1 := by
      simp [laplaceCdf, not_lt.2 (by linarith : (0:ℝ) ≤ upper - value)]
    have hcl : laplaceCdf 0 (lower - value) = 0 := by
      simp [laplaceCdf, (by linarith : lower - value < 0)]
    rw [hcu, hcl]
    simp
  · intro s e d value u h
    simp only [LaplaceBoundedNoise.randomiseVal, LaplaceBoundedNoise.sampleVal]
    rw [h]
    simp
  · intro u h
    rw [h]
    norm_num [npLog]
  · intro s e value hpos
    have hsign : Real.sign ((1:ℝ) - 0.5) = 1 := Real.sign_of_pos (by norm_num)
    have hlog : npLog (1 - 2 * |(1:ℝ) - 0.5|) = ⊥ := by
      have habs : |(1:ℝ) - 0.5| = 0.5 := by
        rw [abs_of_pos] <;> norm_num
      rw [habs]
      norm_num [npLog]
    simp only [Laplace.randomiseEVal]
    rw [hlog, hsign, mul_one]
    rw [EReal.coe_mul_bot_of_pos hpos]
    rw [sub_eq_add_neg, EReal.neg_bot]
    exact EReal.add_top_of_ne_bot (EReal.coe_ne_bot value)

/-- Witness for C8 at concrete inputs for each conjunct. -/
theorem degenerate_scale_behaviour_witness :
    laplaceCdf 0 (-1) = 0 ∧ laplaceCdf 0 2 = 1 ∧
      LaplaceBoundedDomain.randomiseVal 0 0 2 1 (1/2) = 1 ∧
      LaplaceBoundedNoise.randomiseVal 0 1 (1/4) 3 (1/2) = 3 ∧
      npLog (1 - 2 * |(1:ℝ) - 0.5|) = ⊥ ∧
      Laplace.randomiseEVal 1 1 0 1 = ⊤ :=
  ⟨degenerate_scale_behaviour.1 (-1) (by norm_num),
    degenerate_scale_behaviour.2.1 2 (by norm_num),
    degenerate_scale_behaviour.2.2.1 0 2 1 (1/2) (by norm_num) (by norm_num),
    degenerate_scale_behaviour.2.2.2.1 0 1 (1/4) 3 (1/2) (by norm_num),
    degenerate_scale_behaviour.2.2.2.2.1 1 (by norm_num),
    degenerate_scale_behaviour.2.2.2.2.2 1 1 0 (by norm_num)⟩

/-- If the sensitivity or the epsilon is unset, the Laplace configuration check
on a numeric value raises. -/
theorem laplace_check_err {st : MechState} (x : ℝ)
    (h : st.sensitivity = none ∨ st.epsilon = none) :
    isError (Laplace.check_inputs st (PyVal.num x)) := by
  unfold Laplace.check_inputs DPMechanism.check_inputs
  cases he : st.epsilon with
  | none => exact ⟨_, rfl⟩
  | some e =>
    cases hs : st.sensitivity with
    | none => exact ⟨_, rfl⟩
    | some s =>
      rcases h with h | h
      · rw [hs] at h; simp at h
      · rw [he] at h; simp at h

/-- If either bound is unset, the domain-collaborator check raises. -/
theorem tafm_check_err {st : MechState} (v : PyVal)
    (h : st.lower = none ∨ st.upper = none) :
    isError (TruncationAndFoldingMachine.check_inputs st v) := by
  unfold TruncationAndFoldingMachine.check_inputs
  cases hl : st.lower with
  | none => exact ⟨_, rfl⟩
  | some lo =>
    cases hu : st.upper with
    | none => exact ⟨_, rfl⟩
    | some hi =>
      rcases h with h | h
      · rw [hl] at h; simp at h
      · rw [hu] at h; simp at h

/-- A passed domain-collaborator check means both bounds are set. -/
theorem tafm_check_ok {st : MechState} {v : PyVal} {a : Unit}
    (h : TruncationAndFoldingMachine.check_inputs st v = Except.ok a) :
    st.lower ≠ none ∧ st.upper ≠ none := by
  unfold TruncationAndFoldingMachine.check_inputs at h
  cases hl : st.lower with
  | none => rw [hl] at h; cases h
  | some lo =>
    cases hu : st.upper with
    | none => rw [hl, hu] at h; cases h
    | some hi =>
      constructor
      · simp
      · simp

/-- If the sensitivity, the epsilon or either bound is unset, the combined
truncated-variant check on a numeric value raises. -/
theorem lt_check_err {st : MechState} (x : ℝ)
    (h : st.sensitivity = none ∨ st.epsilon = none ∨ st.lower = none ∨
      st.upper = none) :
    isError (LaplaceTruncated.check_inputs st (PyVal.num x)) := by
  unfold LaplaceTruncated.check_inputs
  cases hc : Laplace.check_inputs st (PyVal.num x) with
  | error e => exact ⟨e, rfl⟩
  | ok a =>
    have hb : st.lower = none ∨ st.upper = none := by
      rcases h with h | h | h | h
      · exfalso
        obtain ⟨e, he⟩ := laplace_check_err x (Or.inl h)
        rw [hc] at he; cases he
      · exfalso
        obtain ⟨e, he⟩ := laplace_check_err x (Or.inr h)
        rw [hc] at he; cases he
      · exact Or.inl h
      · exact Or.inr h
    exact tafm_check_err (PyVal.num x) hb

/-- The folded variant's combined check coincides with the truncated one. -/
theorem lf_check_eq_lt (st : MechState) (v : PyVal) :
    LaplaceFolded.check_inputs st v = LaplaceTruncated.check_inputs st v := rfl

/-- C5 counterexample: on a fully unconfigured instance the base
`Laplace.get_bias` returns the numeric value `0.0` instead of raising a
not-configured error. -/
theorem laplace_get_bias_unconfigured :
    Laplace.get_bias emptyState (PyVal.num 5) = Except.ok 0 := rfl

/-- C5 amended: randomise validates the configuration in every variant, as do
get_variance in the base, truncated and bounded-domain variants and get_bias in
the truncated, folded and bounded-domain variants; but the base-Laplace and
bounded-noise get_bias return `0.0` with no check, and the folded and
bounded-noise get_variance return `None` with no check. -/
theorem operations_check_configuration (st : MechState) (x u : ℝ) (fuel : ℕ) :
    (st.sensitivity = none ∨ st.epsilon = none →
      isError (Laplace.randomise st (PyVal.num x) u) ∧
        isError (Laplace.get_variance st (PyVal.num x)) ∧
        isError (LaplaceBoundedNoise.randomise st (PyVal.num x) u)) ∧
      (st.sensitivity = none ∨ st.epsilon = none ∨ st.lower = none ∨
          st.upper = none →
        isError (LaplaceTruncated.randomise st (PyVal.num x) u) ∧
          isError (LaplaceTruncated.get_bias st (PyVal.num x)) ∧
          isError (LaplaceTruncated.get_variance st (PyVal.num x)) ∧
          isError (LaplaceFolded.randomise st (PyVal.num x) u) ∧
          isError (LaplaceFolded.get_bias st (PyVal.num x)) ∧
          isError (LaplaceBoundedDomain.randomise st (PyVal.num x) u fuel) ∧
          isError (LaplaceBoundedDomain.get_bias st (PyVal.num x) fuel) ∧
          isError (LaplaceBoundedDomain.get_variance st (PyVal.num x) fuel)) ∧
      Laplace.get_bias st (PyVal.num x) = Except.ok 0 ∧
      LaplaceBoundedNoise.get_bias st (PyVal.num x) = Except.ok 0 ∧
      LaplaceFolded.get_variance st (PyVal.num x) = Except.ok none ∧
      LaplaceBoundedNoise.get_variance st (PyVal.num x) = Except.ok none := by
  refine ⟨?_, ?_, rfl, rfl, rfl, rfl⟩
  · intro h
    obtain ⟨e, he⟩ := laplace_check_err x h
    obtain ⟨e0, he0⟩ := laplace_check_err 0 h
    refine ⟨⟨e, ?_⟩, ⟨e0, ?_⟩, ⟨e, ?_⟩⟩
    · unfold Laplace.randomise; rw [he]
    · unfold Laplace.get_variance; rw [he0]
    · unfold LaplaceBoundedNoise.randomise; rw [he]
  · intro h
    obtain ⟨e, he⟩ := lt_check_err x h
    refine ⟨?_, ⟨e, ?_⟩, ⟨e, ?_⟩, ?_, ⟨e, ?_⟩, ⟨e, ?_⟩, ⟨e, ?_⟩, ⟨e, ?_⟩⟩
    · unfold LaplaceTruncated.randomise
      cases hT : TruncationAndFoldingMachine.check_inputs st (PyVal.num x) with
      | error e2 => exact ⟨e2, rfl⟩
      | ok a =>
        have hbs := tafm_check_ok hT
        have hse : st.sensitivity = none ∨ st.epsilon = none := by
          rcases h with h | h | h | h
          · exact Or.inl h
          · exact Or.inr h
          · exact absurd h hbs.1
          · exact absurd h hbs.2
        obtain ⟨e2, he2⟩ := laplace_check_err x hse
        have hre : Laplace.randomise st (PyVal.num x) u = Except.error e2 := by
          unfold Laplace.randomise; rw [he2]
        rw [hre]
        exact ⟨e2, rfl⟩
    · unfold LaplaceTruncated.get_bias; rw [he]
    · unfold LaplaceTruncated.get_variance; rw [he]
    · unfold LaplaceFolded.randomise
      cases hT : TruncationAndFoldingMachine.check_inputs st (PyVal.num x) with
      | error e2 => exact ⟨e2, rfl⟩
      | ok a =>
        have hbs := tafm_check_ok hT
        have hse : st.sensitivity = none ∨ st.epsilon = none := by
          rcases h with h | h | h | h
          · exact Or.inl h
          · exact Or.inr h
          · exact absurd h hbs.1
          · exact absurd h hbs.2
        obtain ⟨e2, he2⟩ := laplace_check_err x hse
        have hre : Laplace.randomise st (PyVal.num x) u = Except.error e2 := by
          unfold Laplace.randomise; rw [he2]
        rw [hre]
        exact ⟨e2, rfl⟩
    · unfold LaplaceFolded.get_bias; rw [lf_check_eq_lt, he]
    · unfold LaplaceBoundedDomain.randomise; rw [he]
    · unfold LaplaceBoundedDomain.get_bias; rw [he]
    · unfold LaplaceBoundedDomain.get_variance; rw [he]

/-- Witness for C5 on the fully unconfigured instance. -/
theorem operations_check_configuration_witness :
    isError (Laplace.randomise emptyState (PyVal.num 5) (1/2)) ∧
      isError (LaplaceBoundedDomain.randomise emptyState (PyVal.num 5) (1/2) 0) ∧
      LaplaceFolded.get_variance emptyState (PyVal.num 5) = Except.ok none :=
  ⟨((operations_check_configuration emptyState 5 (1/2) 0).1 (Or.inl rfl)).1,
    ((operations_check_configuration emptyState 5 (1/2) 0).2.1
      (Or.inl rfl)).2.2.2.2.2.1,
    (operations_check_configuration emptyState 5 (1/2) 0).2.2.2.2.1⟩

/-- C6: for the folded and the bounded-noise variants `get_variance` returns
Python's `None` — a non-numeric unsupported marker — for every state and every
value; it never returns a number and never raises. -/
theorem folded_bounded_noise_variance_unsupported :
    ∀ (st : MechState) (v : PyVal),
      LaplaceFolded.get_variance st v = Except.ok none ∧
        LaplaceBoundedNoise.get_variance st v = Except.ok none :=
  fun _ _ => ⟨rfl, rfl⟩

/-- C9: `set_sensitivity` rejects non-positive numerics with a range error and
non-numerics with a type error, in both cases producing no new state (so the
stored sensitivity is untouched), and stores the sensitivity and returns the
mechanism on success; bounded-noise `set_epsilon_delta` raises a range error
for every delta outside the open interval `(0, 0.5)`; and `randomise` on a
numeric value raises a not-configured (value) error whenever the sensitivity is
unset. -/
theorem setter_validation :
    (∀ (st : MechState) (s : ℝ), s ≤ 0 →
      Laplace.set_sensitivity st (PyVal.num s)
        = Except.error (Err.valueError "Sensitivity must be strictly positive")) ∧
      (∀ (st : MechState) (t : String),
        Laplace.set_sensitivity st (PyVal.str t)
          = Except.error (Err.typeError "Sensitivity must be numeric")) ∧
      (∀ (st : MechState) (s : ℝ), 0 < s →
        Laplace.set_sensitivity st (PyVal.num s)
          = Except.ok ⟨st.epsilon, st.delta, some s, st.lower, st.upper, st.scale,
              st.shape, st.noiseBound⟩) ∧
      (∀ (st : MechState) (eps delta : ℝ), ¬ (0 < delta ∧ delta < 0.5) →
        ∃ m, LaplaceBoundedNoise.set_epsilon_delta st eps delta
          = Except.error (Err.valueError m)) ∧
      (∀ (st : MechState) (x u : ℝ), st.sensitivity = none →
        ∃ m, Laplace.randomise st (PyVal.num x) u
          = Except.error (Err.valueError m)) := by
  refine ⟨?_, ?_, ?_, ?_, ?_⟩
  · intro st s hs
    simp [Laplace.set_sensitivity, hs]
  · intro st t
    rfl
  · intro st s hs
    simp [Laplace.set_sensitivity, not_le.2 hs]
  · intro st eps delta h
    unfold LaplaceBoundedNoise.set_epsilon_delta
    by_cases heps : eps = 0
    · rw [if_pos heps]
      exact ⟨_, rfl⟩
    · rw [if_neg heps, if_neg h]
      exact ⟨_, rfl⟩
  · intro st x u hs
    unfold Laplace.randomise Laplace.check_inputs DPMechanism.check_inputs
    cases he : st.epsilon with
    | none => exact ⟨_, rfl⟩
    | some e =>
      rw [hs]
      exact ⟨_, rfl⟩

/-- Witness for C9 at the spec's concrete scenarios. -/
theorem setter_validation_witness :
    Laplace.set_sensitivity emptyState (PyVal.num (-1))
        = Except.error (Err.valueError "Sensitivity must be strictly positive") ∧
      Laplace.set_sensitivity emptyState (PyVal.str "a")
        = Except.error (Err.typeError "Sensitivity must be numeric") ∧
      Laplace.set_sensitivity emptyState (PyVal.num 2)
        = Except.ok ⟨none, 0, some 2, none, none, none, none, none⟩ ∧
      (∃ m, LaplaceBoundedNoise.set_epsilon_delta emptyState 1 0.6
        = Except.error (Err.valueError m)) ∧
      (∃ m, Laplace.randomise emptyState (PyVal.num 5) (1/2)
        = Except.error (Err.valueError m)) :=
  ⟨setter_validation.1 emptyState (-1) (by norm_num),
    setter_validation.2.1 emptyState "a",
    setter_validation.2.2.1 emptyState 2 (by norm_num),
    setter_validation.2.2.2.1 emptyState 1 0.6 (by norm_num),
    setter_validation.2.2.2.2 emptyState 5 (1/2) rfl⟩

/-- C10: the bounded-domain scale solver fixes its local delta to `0` and never
reads the configured delta, so two instances agreeing on epsilon, sensitivity,
the bounds and the scale cache — but carrying different deltas — solve the same
scale at every iteration count and report the same effective epsilon. -/
theorem find_scale_delta_independent (e s l up c sh nb : Option ℝ) (d1 d2 : ℝ)
    (fuel : ℕ) :
    LaplaceBoundedDomain.findScale ⟨e, d1, s, l, up, c, sh, nb⟩ fuel
        = LaplaceBoundedDomain.findScale ⟨e, d2, s, l, up, c, sh, nb⟩ fuel ∧
      LaplaceBoundedDomain.get_effective_epsilon ⟨e, d1, s, l, up, c, sh, nb⟩ fuel
        = LaplaceBoundedDomain.get_effective_epsilon ⟨e, d2, s, l, up, c, sh, nb⟩
            fuel :=
  ⟨rfl, rfl⟩

end DPLib
